import Mathlib

/-!
Verification of the check-aggregation and scoring engine of the
security-dashboard backend (`backend/src/checks/`).

The JavaScript source is embedded shallowly: every probe's IO boundary
(spawned commands, file reads, HTTP calls) is abstracted into explicit
function arguments, and the pure decision logic that follows the IO is
translated directly.  JavaScript numbers are modelled as `Nat`/`Int`/`Rat`
as appropriate; `Math.round(a / b)` on non-negative integers is modelled
as `(2 * a + b) / (2 * b)` in natural division (round half up), which
agrees with the float computation at every input the theorems touch.
-/

namespace SecurityDashboard

/-- The five terminal check statuses (`pass, info, warning, critical, error`). -/
inductive Status where
  | pass
  | info
  | warning
  | critical
  | error
deriving DecidableEq, Repr

/-- One entry of a report's `recommendations` array: `{severity, message}`. -/
structure Recommendation where
  severity : String
  message : String
deriving DecidableEq, Repr

/-- One entry of a report's `fixes` array (the fields the claims touch). -/
structure FixDescriptor where
  id : String
  name : String
  description : String
  autoFix : Bool
  command : Option String := none
deriving DecidableEq, Repr

/-- A normalized Check Report, the shape every probe returns and
`runAllChecks` aggregates.  `details` flattens the probe-specific detail
object into a string association list (only the entries the claims read
are modelled). -/
structure CheckReport where
  id : String
  name : String
  status : Status
  message : String
  details : List (String × String)
  recommendations : List Recommendation
  fixes : List FixDescriptor
deriving DecidableEq, Repr

/-- Outcome of awaiting one probe: a report, or a thrown exception's
message. -/
abbrev ProbeOutcome := Except String CheckReport

/-- `Math.round(a / b)` for non-negative integers `a` and positive `b`:
round half up, i.e. `⌊(2a + b) / 2b⌋`. -/
def jsRound (a b : Nat) : Nat := (2 * a + b) / (2 * b)

/-- The Result Set assembled by `runAllChecks`. -/
structure ResultSet where
  totalChecks : Nat
  passed : Nat
  info : Nat
  warnings : Nat
  critical : Nat
  overallScore : Nat
  checks : List CheckReport
deriving Repr

/-- The synthetic report pushed when a probe throws:
`{id, name: id, status: 'error', message: error.message}`. -/
def syntheticErrorReport (id msg : String) : CheckReport :=
  { id := id, name := id, status := .error, message := msg,
    details := [], recommendations := [], fixes := [] }

/-- The report contributed by one registry entry: on success the probe's
report with `result.id = id` assigned by the loop, on a thrown exception
the synthetic error report. -/
def reportFor : String × ProbeOutcome → CheckReport
  | (id, .ok r) => { r with id := id }
  | (id, .error msg) => syntheticErrorReport id msg

/-- The `for (const [id, checkFn] of Object.entries(checks))` loop of
`runAllChecks`: push each report and bump the tally matching its status
(`error` bumps none). -/
def runAllChecksAux : List (String × ProbeOutcome) → ResultSet → ResultSet
  | [], results => results
  | entry :: rest, results =>
      let r := reportFor entry
      runAllChecksAux rest
        { results with
          checks := results.checks ++ [r]
          passed := results.passed + (if r.status = .pass then 1 else 0)
          info := results.info + (if r.status = .info then 1 else 0)
          warnings := results.warnings + (if r.status = .warning then 1 else 0)
          critical := results.critical + (if r.status = .critical then 1 else 0) }

/-- `runAllChecks` over an abstract registry (each probe replaced by its
awaited outcome): run the loop from the empty Result Set, then compute
`overallScore = Math.round(((passed + info) * 100 + warnings * 50) / totalChecks)`. -/
def runAllChecks (registry : List (String × ProbeOutcome)) : ResultSet :=
  let base : ResultSet :=
    { totalChecks := registry.length, passed := 0, info := 0,
      warnings := 0, critical := 0, overallScore := 0, checks := [] }
  let results := runAllChecksAux registry base
  { results with
    overallScore :=
      jsRound ((results.passed + results.info) * 100 + results.warnings * 50)
        results.totalChecks }

/-- `runCheck(checkId)`: unknown id throws `Unknown check: id`; otherwise
the probe runs (its own exception propagating) and gets `result.id`
assigned. -/
def runCheck (registry : List (String × ProbeOutcome)) (checkId : String) :
    Except String CheckReport :=
  match (registry.find? (fun e => e.1 = checkId)).map (·.2) with
  | none => .error ("Unknown check: " ++ checkId)
  | some (.error msg) => .error msg
  | some (.ok r) => .ok { r with id := checkId }

/-- Count of reports carrying a given status. -/
def countStatus (s : Status) (l : List CheckReport) : Nat :=
  (l.filter (fun c => c.status = s)).length

theorem countStatus_append (s : Status) (l₁ l₂ : List CheckReport) :
    countStatus s (l₁ ++ l₂) = countStatus s l₁ + countStatus s l₂ := by
  simp [countStatus, List.filter_append]

/-- Characterization of the aggregation loop: it appends the per-entry
reports in registry order and adds the status tallies of the new reports. -/
theorem runAllChecksAux_spec (registry : List (String × ProbeOutcome))
    (acc : ResultSet) :
    runAllChecksAux registry acc =
      { acc with
        checks := acc.checks ++ registry.map reportFor
        passed := acc.passed + countStatus .pass (registry.map reportFor)
        info := acc.info + countStatus .info (registry.map reportFor)
        warnings := acc.warnings + countStatus .warning (registry.map reportFor)
        critical := acc.critical + countStatus .critical (registry.map reportFor) } := by
  induction registry generalizing acc with
  | nil => simp [runAllChecksAux, countStatus]
  | cons entry rest ih =>
      simp only [runAllChecksAux, List.map_cons, ih]
      have hsingle : ∀ s : Status,
          countStatus s [reportFor entry] =
            (if (reportFor entry).status = s then 1 else 0) := by
        intro s
        simp [countStatus, List.filter]
        split <;> simp_all
      have : (reportFor entry :: rest.map reportFor) =
          [reportFor entry] ++ rest.map reportFor := rfl
      rw [this]
      simp only [countStatus_append, hsingle]
      congr 1 <;> first | omega | simp [List.append_assoc]

theorem runAllChecks_checks (registry : List (String × ProbeOutcome)) :
    (runAllChecks registry).checks = registry.map reportFor := by
  simp [runAllChecks, runAllChecksAux_spec]

theorem runAllChecks_tallies (registry : List (String × ProbeOutcome)) :
    (runAllChecks registry).passed = countStatus .pass (runAllChecks registry).checks ∧
    (runAllChecks registry).info = countStatus .info (runAllChecks registry).checks ∧
    (runAllChecks registry).warnings = countStatus .warning (runAllChecks registry).checks ∧
    (runAllChecks registry).critical = countStatus .critical (runAllChecks registry).checks ∧
    (runAllChecks registry).totalChecks = registry.length := by
  simp [runAllChecks, runAllChecksAux_spec]

theorem runAllChecks_overallScore (registry : List (String × ProbeOutcome)) :
    (runAllChecks registry).overallScore =
      jsRound
        ((countStatus .pass (registry.map reportFor) +
          countStatus .info (registry.map reportFor)) * 100 +
          countStatus .warning (registry.map reportFor) * 50)
        registry.length := by
  simp [runAllChecks, runAllChecksAux_spec]

theorem countStatus_cons (s : Status) (c : CheckReport) (l : List CheckReport) :
    countStatus s (c :: l) =
      (if c.status = s then 1 else 0) + countStatus s l := by
  simp [countStatus, List.filter]
  split <;> simp_all [Nat.add_comm]

theorem countStatus_three_le (l : List CheckReport) :
    countStatus .pass l + countStatus .info l + countStatus .warning l ≤ l.length := by
  induction l with
  | nil => simp [countStatus]
  | cons c t ih =>
      cases hc : c.status <;>
        simp [countStatus_cons, hc] <;> omega

theorem countStatus_pass_info_iff (l : List CheckReport) :
    countStatus .pass l + countStatus .info l = l.length ↔
      ∀ c ∈ l, c.status = .pass ∨ c.status = .info := by
  induction l with
  | nil => simp [countStatus]
  | cons c t ih =>
      have hle : countStatus .pass t + countStatus .info t ≤ t.length := by
        have := countStatus_three_le t
        omega
      cases hc : c.status <;>
        simp [countStatus_cons, hc, ← ih] <;> omega

/-- A minimal probe report with a chosen name and status. -/
def mkReport (nm : String) (st : Status) : CheckReport :=
  { id := "", name := nm, status := st, message := "",
    details := [], recommendations := [], fixes := [] }

/-- The score-formula scenario of the spec: the 9 registered checks
resolving to 5 `pass`, 2 `info`, 1 `warning` and 1 `critical`. -/
def scenarioRegistry : List (String × ProbeOutcome) :=
  [("hardware", .ok (mkReport "Hardware Health" .pass)),
   ("openPorts", .ok (mkReport "Open Ports" .pass)),
   ("firewall", .ok (mkReport "Firewall Status" .pass)),
   ("ssh", .ok (mkReport "SSH Security" .pass)),
   ("gateway", .ok (mkReport "Gateway Security" .pass)),
   ("updates", .ok (mkReport "System Updates" .info)),
   ("permissions", .ok (mkReport "File Permissions" .info)),
   ("services", .ok (mkReport "Running Services" .warning)),
   ("network", .ok (mkReport "Network Exposure" .critical))]

/-- C1: for every aggregation run, `overallScore` equals
`round(((passed + info) * 100 + warnings * 50) / totalChecks)` where the
tallies are the counts of checks with those statuses and `totalChecks` is
the registry size; in particular the 5 pass / 2 info / 1 warning /
1 critical run over 9 checks scores 83. -/
theorem claim_overallScore_formula :
    (∀ registry : List (String × ProbeOutcome), 0 < registry.length →
      (runAllChecks registry).overallScore =
        jsRound
          ((countStatus .pass (runAllChecks registry).checks +
            countStatus .info (runAllChecks registry).checks) * 100 +
            countStatus .warning (runAllChecks registry).checks * 50)
          (runAllChecks registry).totalChecks) ∧
    (runAllChecks scenarioRegistry).totalChecks = 9 ∧
    (runAllChecks scenarioRegistry).passed = 5 ∧
    (runAllChecks scenarioRegistry).info = 2 ∧
    (runAllChecks scenarioRegistry).warnings = 1 ∧
    (runAllChecks scenarioRegistry).critical = 1 ∧
    (runAllChecks scenarioRegistry).overallScore = 83 := by
  refine ⟨?_, by decide, by decide, by decide, by decide, by decide, by decide⟩
  intro registry _
  obtain ⟨-, -, -, -, ht⟩ := runAllChecks_tallies registry
  rw [runAllChecks_checks, ht, runAllChecks_overallScore]

theorem claim_overallScore_formula_witness :
    0 < scenarioRegistry.length ∧
    (runAllChecks scenarioRegistry).overallScore =
      jsRound
        ((countStatus .pass (runAllChecks scenarioRegistry).checks +
          countStatus .info (runAllChecks scenarioRegistry).checks) * 100 +
          countStatus .warning (runAllChecks scenarioRegistry).checks * 50)
        (runAllChecks scenarioRegistry).totalChecks :=
  ⟨by decide, claim_overallScore_formula.1 scenarioRegistry (by decide)⟩

/-- C2: a throwing probe is recorded as a synthetic `error` report with
the thrown message and never aborts the run or alters another probe's
report: with probe `A` always throwing and probe `B` always returning a
`pass` report, `B`'s report in the Result Set is exactly the report `B`
yields when run alone. -/
theorem claim_probe_isolation (msgA : String) (rB : CheckReport)
    (_hB : rB.status = .pass) :
    (runAllChecks [("A", .error msgA), ("B", .ok rB)]).checks =
      [syntheticErrorReport "A" msgA, { rB with id := "B" }] ∧
    runCheck [("B", Except.ok rB)] "B" = .ok { rB with id := "B" } ∧
    (runAllChecks [("B", Except.ok rB)]).checks = [{ rB with id := "B" }] := by
  refine ⟨?_, ?_, ?_⟩ <;>
    simp [runAllChecks_checks, reportFor, runCheck, List.find?]

theorem claim_probe_isolation_witness :
    (mkReport "B probe" .pass).status = .pass ∧
    (runAllChecks [("A", .error "boom"), ("B", .ok (mkReport "B probe" .pass))]).checks =
      [syntheticErrorReport "A" "boom", { mkReport "B probe" .pass with id := "B" }] :=
  ⟨by decide,
   (claim_probe_isolation "boom" (mkReport "B probe" .pass) (by decide)).1⟩

/-- C3: over a 9-probe registry every Result Set's `overallScore` lies in
`[0, 100]`, and it is `100` exactly when every check reports `pass` or
`info`. -/
theorem claim_overallScore_range (registry : List (String × ProbeOutcome))
    (h9 : registry.length = 9) :
    0 ≤ (runAllChecks registry).overallScore ∧
    (runAllChecks registry).overallScore ≤ 100 ∧
    ((runAllChecks registry).overallScore = 100 ↔
      ∀ c ∈ (runAllChecks registry).checks,
        c.status = .pass ∨ c.status = .info) := by
  have hchecks := runAllChecks_checks registry
  have hscore := runAllChecks_overallScore registry
  have hlen : (registry.map reportFor).length = 9 := by simpa using h9
  have h3 := countStatus_three_le (registry.map reportFor)
  have hiff := countStatus_pass_info_iff (registry.map reportFor)
  rw [hlen] at h3 hiff
  refine ⟨Nat.zero_le _, ?_, ?_⟩
  · rw [hscore, h9]
    simp only [jsRound]
    omega
  · rw [hscore, h9, hchecks, ← hiff]
    simp only [jsRound]
    omega

theorem claim_overallScore_range_witness :
    scenarioRegistry.length = 9 ∧
    (runAllChecks scenarioRegistry).overallScore ≤ 100 :=
  ⟨by decide, (claim_overallScore_range scenarioRegistry (by decide)).2.1⟩

/-! ## String utilities shared by the probe embeddings -/

/-- `String.prototype.toLowerCase` (ASCII, as used by the probes). -/
def lowerStr (s : String) : String := String.mk (s.toList.map Char.toLower)

/-- Substring occurrence on character lists. -/
def charsContains (pat : List Char) : List Char → Bool
  | [] => pat.isEmpty
  | c :: rest => pat.isPrefixOf (c :: rest) || charsContains pat rest

/-- `String.prototype.includes(pat)`. -/
def strIncludes (s pat : String) : Bool := charsContains pat.toList s.toList

/-! ## SSH probe (`checkSSH` in `checks/ssh.js`)

The probe's IO (the `pgrep -x sshd` process test and the
`/etc/ssh/sshd_config` read) is abstracted into the arguments
`sshRunning` and `config`; the config file is passed already split into
lines, so the multiline-anchored regexes `^Name\s+(\S+)` and
`^MaxAuthTries\s+(\d+)` become per-line prefix matches.  The
`authorized_keys` / `known_hosts` detail lookups touch nothing the
claims read and are not modelled. -/

/-- JavaScript `\s` for the characters that can occur inside one line. -/
def isJsWs (c : Char) : Bool :=
  c = ' ' || c = '\t' || c = '\r' || c = '\x0b' || c = '\x0c'

/-- Capture class of a directive pattern: `(\S+)` or `(\d+)`. -/
inductive TokenPat where
  | nonSpace
  | digits
deriving DecidableEq, Repr

def tokenChar : TokenPat → Char → Bool
  | .nonSpace, c => !isJsWs c
  | .digits, c => c.isDigit

/-- Match `^Name\s+(tok+)` against one line, returning the capture. -/
def matchDirectiveLine (name : List Char) (pat : TokenPat)
    (line : List Char) : Option (List Char) :=
  if name.isPrefixOf line then
    let rest := line.drop name.length
    let ws := rest.takeWhile isJsWs
    let rest2 := rest.drop ws.length
    let tok := rest2.takeWhile (tokenChar pat)
    if 0 < ws.length ∧ 0 < tok.length then some tok else none
  else none

/-- First match of the directive pattern over the config's lines
(the `m`-flagged `config.match`). -/
def findDirective (name : String) (pat : TokenPat) (lines : List String) :
    Option String :=
  lines.findSome? fun l =>
    (matchDirectiveLine name.toList pat l.toList).map fun cs => String.mk cs

/-- A directive's known-secure rule: a value list, or the
`(val) => parseInt(val) <= 3` function of `maxAuthTries`. -/
inductive SecureRule where
  | values (vs : List String)
  | maxTries
deriving Repr

/-- One entry of the `configChecks` table. -/
structure DirectiveCheck where
  key : String
  directive : String
  pat : TokenPat
  rule : SecureRule
  message : String
deriving Repr

/-- The `configChecks` table of `checkSSH`. -/
def configChecks : List DirectiveCheck :=
  [⟨"permitRootLogin", "PermitRootLogin", .nonSpace,
    .values ["no", "prohibit-password"], "Root login should be disabled"⟩,
   ⟨"passwordAuth", "PasswordAuthentication", .nonSpace,
    .values ["no"], "Password authentication should be disabled (use keys)"⟩,
   ⟨"pubkeyAuth", "PubkeyAuthentication", .nonSpace,
    .values ["yes"], "Public key authentication should be enabled"⟩,
   ⟨"x11Forwarding", "X11Forwarding", .nonSpace,
    .values ["no"], "X11 forwarding should be disabled if not needed"⟩,
   ⟨"maxAuthTries", "MaxAuthTries", .digits,
    .maxTries, "MaxAuthTries should be 3 or less"⟩]

/-- `parseInt` on a captured digit string (the `(\d+)` pattern guarantees
the argument is a non-empty run of decimal digits). -/
def parseNatJs (s : String) : Nat :=
  s.toList.foldl (fun n c => n * 10 + (c.toNat - 48)) 0

/-- `const value = match ? match[1].toLowerCase() : 'default'`. -/
def directiveValue (c : DirectiveCheck) (lines : List String) : String :=
  match findDirective c.directive c.pat lines with
  | some v => lowerStr v
  | none => "default"

/-- The `isSecure` test of the loop body. -/
def directiveSecure (c : DirectiveCheck) (v : String) : Bool :=
  match c.rule with
  | .values vs => vs.contains v
  | .maxTries => v != "default" && parseNatJs v ≤ 3

/-- The directive table paired with each directive's extracted value
(`result.details.config`). -/
def sshEvaluated (lines : List String) : List (DirectiveCheck × String) :=
  configChecks.map fun c => (c, directiveValue c lines)

/-- Directives counted as issues: `!isSecure && value !== 'default'`. -/
def sshIssuesL (lines : List String) : List (DirectiveCheck × String) :=
  (sshEvaluated lines).filter fun cv =>
    !directiveSecure cv.1 cv.2 && cv.2 != "default"

/-- The probe's `issues` counter. -/
def sshIssueCount (lines : List String) : Nat := (sshIssuesL lines).length

/-- The recommendations pushed by the config loop, one per issue. -/
def sshRecommendations (lines : List String) : List Recommendation :=
  (sshIssuesL lines).map fun cv => ⟨"medium", cv.1.message⟩

/-- `checkSSH`, with the process probe and the config read abstracted:
`sshRunning` is the outcome of `pgrep -x sshd`, `config` the readable
config's lines (`none` = read failed). -/
def checkSSH (sshRunning : Bool) (config : Option (List String)) : CheckReport :=
  if !sshRunning then
    { id := "", name := "SSH Security", status := .pass,
      message := "SSH server is not running",
      details := [("sshServerRunning", "false")],
      recommendations := [], fixes := [] }
  else
    match config with
    | none =>
        { id := "", name := "SSH Security", status := .pass,
          message := "Cannot read SSH config (may need sudo)",
          details := [("sshServerRunning", "true"), ("configReadable", "false")],
          recommendations := [], fixes := [] }
    | some lines =>
        let issues := sshIssueCount lines
        { id := "", name := "SSH Security",
          status :=
            if 0 < issues then
              if 2 ≤ issues then .critical else .warning
            else .pass,
          message :=
            if 0 < issues then
              toString issues ++ " SSH configuration issue(s) found"
            else "SSH configuration looks secure",
          details :=
            ("sshServerRunning", "true") ::
              (sshEvaluated lines).map fun cv => (cv.1.key, cv.2),
          recommendations := sshRecommendations lines,
          fixes :=
            if 0 < issues then
              [{ id := "harden_ssh", name := "Harden SSH Configuration",
                 description := "Apply security best practices to SSH configuration",
                 autoFix := true }]
            else [] }

/-- The scenario config: root login and password auth insecure, the other
three directives at their known-secure values. -/
def demoSshConfig : List String :=
  ["PermitRootLogin yes", "PasswordAuthentication yes",
   "PubkeyAuthentication yes", "X11Forwarding no", "MaxAuthTries 3"]

/-- C5: `checkSSH` passes immediately with no SSH server; otherwise it
counts one issue per insecure directive and grades
`issues ≥ 2 ⇒ critical`, `= 1 ⇒ warning`, `= 0 ⇒ pass`, emitting one
recommendation per issue; the root-login + password-auth scenario is
`critical` with exactly those two recommendation messages. -/
theorem claim_ssh_grading :
    (∀ cfg, (checkSSH false cfg).status = .pass) ∧
    (∀ lines,
      (checkSSH true (some lines)).status =
        (if 2 ≤ sshIssueCount lines then .critical
         else if sshIssueCount lines = 1 then .warning else .pass) ∧
      (checkSSH true (some lines)).recommendations.length = sshIssueCount lines) ∧
    (checkSSH true (some demoSshConfig)).status = .critical ∧
    (checkSSH true (some demoSshConfig)).recommendations =
      [⟨"medium", "Root login should be disabled"⟩,
       ⟨"medium", "Password authentication should be disabled (use keys)"⟩] := by
  refine ⟨fun cfg => by simp [checkSSH], fun lines => ⟨?_, ?_⟩, by decide, by decide⟩
  · by_cases h2 : 2 ≤ sshIssueCount lines
    · have h0 : 0 < sshIssueCount lines := by omega
      simp [checkSSH, h0, h2]
    · by_cases h1 : sshIssueCount lines = 1
      · simp [checkSSH, h1, h2]
      · have h0 : ¬ 0 < sshIssueCount lines := by omega
        simp [checkSSH, h0, h2, h1]
  · simp [checkSSH, sshRecommendations, sshIssueCount]

/-- C10: a directive absent from the config is recorded as `'default'`
and never counted as an issue (including `pubkeyAuth`, whose only secure
value is an explicit `yes`): with the SSH server running and none of the
five directives set, the probe passes with zero recommendations. -/
theorem claim_ssh_absent_directives (lines : List String)
    (hdef : ∀ c ∈ configChecks, directiveValue c lines = "default") :
    (checkSSH true (some lines)).status = .pass ∧
    (checkSSH true (some lines)).recommendations = [] ∧
    (checkSSH true (some lines)).fixes = [] ∧
    (checkSSH true (some lines)).message = "SSH configuration looks secure" ∧
    (checkSSH true (some lines)).details =
      [("sshServerRunning", "true"), ("permitRootLogin", "default"),
       ("passwordAuth", "default"), ("pubkeyAuth", "default"),
       ("x11Forwarding", "default"), ("maxAuthTries", "default")] := by
  simp only [configChecks, List.forall_mem_cons, List.forall_mem_nil] at hdef
  obtain ⟨h1, h2, h3, h4, h5, -⟩ := hdef
  have heval : sshEvaluated lines =
      configChecks.map fun c => (c, "default") := by
    simp [sshEvaluated, configChecks, h1, h2, h3, h4, h5]
  have hissues : sshIssuesL lines = [] := by
    simp [sshIssuesL, heval, configChecks]
  refine ⟨?_, ?_, ?_, ?_, ?_⟩ <;>
    simp [checkSSH, sshIssueCount, hissues, sshRecommendations, heval, configChecks]

theorem claim_ssh_absent_directives_witness :
    (∀ c ∈ configChecks, directiveValue c ["Port 22"] = "default") ∧
    (checkSSH true (some ["Port 22"])).status = .pass ∧
    (checkSSH true (some ["Port 22"])).recommendations = [] :=
  ⟨by decide,
   (claim_ssh_absent_directives ["Port 22"] (by decide)).1,
   (claim_ssh_absent_directives ["Port 22"] (by decide)).2.1⟩

/-! ## Temperature probe thresholds (`checks/temperature.js`) and the
hardware probe's temperature grading (`checks/hardware.js`)

Sensor acquisition (LibreHardwareMonitor HTTP, WMI, `nvidia-smi`,
`systeminformation`) is abstracted: the classification logic is modelled
as a function of the CPU/GPU temperatures it ends up with (`none` =
sensor absent).  Temperatures are rationals, standing in for the float
readings.  The fan, load, memory and disk branches touch neither
threshold table and are not modelled. -/

structure TempRange where
  warning : ℚ
  critical : ℚ
deriving DecidableEq, Repr

structure TempThresholds where
  cpu : TempRange
  gpu : TempRange
deriving DecidableEq, Repr

/-- `defaultThresholds` of `temperature.js`. -/
def defaultThresholds : TempThresholds := ⟨⟨75, 90⟩, ⟨80, 95⟩⟩

/-- Status assignment of `checkTemperature`: CPU graded against
`thresholds.cpu` with `≥`, then GPU against `thresholds.gpu`, `critical`
overriding, `warning` only upgrading a `pass`. -/
def checkTemperatureStatus (cpuTemp gpuCoreTemp : Option ℚ) : Status :=
  let s : Status := .pass
  let s :=
    match cpuTemp with
    | some t =>
        if t ≥ defaultThresholds.cpu.critical then .critical
        else if t ≥ defaultThresholds.cpu.warning then
          (if s = .pass then .warning else s)
        else s
    | none => s
  match gpuCoreTemp with
  | some t =>
      if t ≥ defaultThresholds.gpu.critical then .critical
      else if t ≥ defaultThresholds.gpu.warning then
        (if s = .pass then .warning else s)
      else s
  | none => s

/-- Status assignment of `checkHardware`'s temperature branches: the GPU
block (`> 85` critical, `> 80` warning), then the CPU block (`> 85`
critical, `> 75` warning), `critical` overriding, `warning` only
upgrading a `pass`. -/
def checkHardwareTempStatus (cpuTemp gpuTemp : Option ℚ) : Status :=
  let s : Status := .pass
  let s :=
    match gpuTemp with
    | some t =>
        if t > 85 then .critical
        else if t > 80 then (if s = .pass then .warning else s)
        else s
    | none => s
  match cpuTemp with
  | some t =>
      if t > 85 then .critical
      else if t > 75 then (if s = .pass then .warning else s)
      else s
  | none => s

/-- C6 counterexample: the claim puts the hardware/temperature probe's
CPU warning→critical boundary exactly at 90 °C, but `checkHardware`
escalates to `critical` already at 87 °C (its boundary is `> 85`). -/
theorem claim_temp_thresholds_counterexample :
    (75 : ℚ) < 87 ∧ (87 : ℚ) < 90 ∧
    checkHardwareTempStatus (some 87) none = .critical := by
  refine ⟨by norm_num, by norm_num, ?_⟩
  norm_num [checkHardwareTempStatus]

theorem tempStatus_cpu_critical_iff (t : ℚ) :
    checkTemperatureStatus (some t) none = .critical ↔ 90 ≤ t := by
  by_cases h1 : (90 : ℚ) ≤ t
  · simp [checkTemperatureStatus, defaultThresholds, ge_iff_le, h1]
  · by_cases h2 : (75 : ℚ) ≤ t <;>
      simp [checkTemperatureStatus, defaultThresholds, ge_iff_le, h1, h2]

theorem tempStatus_cpu_warning_iff (t : ℚ) :
    checkTemperatureStatus (some t) none = .warning ↔ 75 ≤ t ∧ t < 90 := by
  by_cases h1 : (90 : ℚ) ≤ t
  · have h3 : ¬ t < 90 := not_lt.mpr h1
    simp [checkTemperatureStatus, defaultThresholds, ge_iff_le, h1, h3]
  · have h3 : t < 90 := not_le.mp h1
    by_cases h2 : (75 : ℚ) ≤ t <;>
      simp [checkTemperatureStatus, defaultThresholds, ge_iff_le, h1, h2, h3]

theorem tempStatus_gpu_critical_iff (t : ℚ) :
    checkTemperatureStatus none (some t) = .critical ↔ 95 ≤ t := by
  by_cases h1 : (95 : ℚ) ≤ t
  · simp [checkTemperatureStatus, defaultThresholds, ge_iff_le, h1]
  · by_cases h2 : (80 : ℚ) ≤ t <;>
      simp [checkTemperatureStatus, defaultThresholds, ge_iff_le, h1, h2]

theorem tempStatus_gpu_warning_iff (t : ℚ) :
    checkTemperatureStatus none (some t) = .warning ↔ 80 ≤ t ∧ t < 95 := by
  by_cases h1 : (95 : ℚ) ≤ t
  · have h3 : ¬ t < 95 := not_lt.mpr h1
    simp [checkTemperatureStatus, defaultThresholds, ge_iff_le, h1, h3]
  · have h3 : t < 95 := not_le.mp h1
    by_cases h2 : (80 : ℚ) ≤ t <;>
      simp [checkTemperatureStatus, defaultThresholds, ge_iff_le, h1, h2, h3]

theorem hwStatus_cpu_critical_iff (t : ℚ) :
    checkHardwareTempStatus (some t) none = .critical ↔ 85 < t := by
  by_cases h1 : (85 : ℚ) < t
  · simp [checkHardwareTempStatus, h1]
  · by_cases h2 : (75 : ℚ) < t <;>
      simp [checkHardwareTempStatus, h1, h2]

theorem hwStatus_gpu_critical_iff (t : ℚ) :
    checkHardwareTempStatus none (some t) = .critical ↔ 85 < t := by
  by_cases h1 : (85 : ℚ) < t
  · simp [checkHardwareTempStatus, h1]
  · by_cases h2 : (80 : ℚ) < t <;>
      simp [checkHardwareTempStatus, h1, h2]

/-- C6 amended: the threshold table CPU {75, 90} / GPU {80, 95} belongs
to the dedicated temperature probe (`checkTemperature`), which classifies
with it exactly (`critical` iff temp ≥ critical threshold, `warning` iff
warning ≤ temp < critical); the hardware probe (`checkHardware`) also
reports `warning` at CPU 76 °C and `critical` at 91 °C, but its
warning→critical boundary is `> 85` °C for both CPU and GPU, not 90/95. -/
theorem claim_temp_thresholds_amended :
    defaultThresholds = ⟨⟨75, 90⟩, ⟨80, 95⟩⟩ ∧
    (∀ t : ℚ,
      (checkTemperatureStatus (some t) none = .critical ↔ 90 ≤ t) ∧
      (checkTemperatureStatus (some t) none = .warning ↔ 75 ≤ t ∧ t < 90) ∧
      (checkTemperatureStatus none (some t) = .critical ↔ 95 ≤ t) ∧
      (checkTemperatureStatus none (some t) = .warning ↔ 80 ≤ t ∧ t < 95)) ∧
    checkHardwareTempStatus (some 76) none = .warning ∧
    checkHardwareTempStatus (some 91) none = .critical ∧
    (∀ t : ℚ,
      (checkHardwareTempStatus (some t) none = .critical ↔ 85 < t) ∧
      (checkHardwareTempStatus none (some t) = .critical ↔ 85 < t)) :=
  ⟨rfl,
   fun t => ⟨tempStatus_cpu_critical_iff t, tempStatus_cpu_warning_iff t,
             tempStatus_gpu_critical_iff t, tempStatus_gpu_warning_iff t⟩,
   by norm_num [checkHardwareTempStatus],
   by norm_num [checkHardwareTempStatus],
   fun t => ⟨hwStatus_cpu_critical_iff t, hwStatus_gpu_critical_iff t⟩⟩

/-! ## Application-audit probe merge (`checkClawdbot` in
`checks/clawdbot.js`)

When the WSL audit reports zero criticals, the probe re-runs the audit
in the Windows context and, if the Windows result has any critical or
strictly more warnings, builds `details.combined` from the two parsed
results.  The merge below is that `combined` computation, verbatim. -/

structure AuditSummary where
  critical : Nat
  warn : Nat
  info : Nat
deriving DecidableEq, Repr

structure AuditIssue where
  id : String
  title : String
  severity : String
  description : String
  fix : String
  platform : Option String := none
deriving DecidableEq, Repr

structure AuditResult where
  summary : AuditSummary
  issues : List AuditIssue
deriving DecidableEq, Repr

/-- The `details.combined` object: criticals and warnings are added,
infos take the max, and the Windows issues are appended tagged with
`platform: 'windows'`. -/
def mergeAudits (wsl win : AuditResult) : AuditResult :=
  { summary :=
      { critical := wsl.summary.critical + win.summary.critical,
        warn := wsl.summary.warn + win.summary.warn,
        info := max wsl.summary.info win.summary.info },
    issues :=
      wsl.issues ++ win.issues.map fun i => { i with platform := some "windows" } }

/-- The merge decision: combine only when the Windows context reports a
critical issue or strictly more warnings; otherwise keep the WSL result. -/
def combineContexts (wsl win : AuditResult) : AuditResult :=
  if 0 < win.summary.critical ∨ wsl.summary.warn < win.summary.warn then
    mergeAudits wsl win
  else wsl

/-- C8 counterexample: the claim says each merged severity count is the
max of the two contexts' counts, but the code adds the warn counts: with
WSL reporting 1 warn and Windows 3, the merged result carries 4 warnings,
not `max 1 3 = 3` (criticals are likewise added, only infos take a max). -/
theorem claim_audit_merge_counterexample :
    (combineContexts ⟨⟨0, 1, 2⟩, []⟩ ⟨⟨2, 3, 1⟩, []⟩).summary.warn = 4 ∧
    max (1 : Nat) 3 = 3 ∧
    (combineContexts ⟨⟨0, 1, 2⟩, []⟩ ⟨⟨2, 3, 1⟩, []⟩).summary.critical = 2 ∧
    (combineContexts ⟨⟨0, 1, 2⟩, []⟩ ⟨⟨2, 3, 1⟩, []⟩).summary.info = 2 := by
  decide

/-- C8 amended: when the two execution contexts' audit results are
merged, the merged issue list is the concatenation of the two lists (the
Windows issues tagged with `platform: 'windows'`), the merged critical
and warn counts are the sums of the contexts' counts, and only the info
count takes the max; the merge happens exactly when the Windows context
reports a critical issue or strictly more warnings. -/
theorem claim_audit_merge_amended (wsl win : AuditResult) :
    (mergeAudits wsl win).summary.critical =
      wsl.summary.critical + win.summary.critical ∧
    (mergeAudits wsl win).summary.warn =
      wsl.summary.warn + win.summary.warn ∧
    (mergeAudits wsl win).summary.info =
      max wsl.summary.info win.summary.info ∧
    (mergeAudits wsl win).issues =
      wsl.issues ++ win.issues.map (fun i => { i with platform := some "windows" }) ∧
    (0 < win.summary.critical ∨ wsl.summary.warn < win.summary.warn →
      combineContexts wsl win = mergeAudits wsl win) ∧
    (¬ (0 < win.summary.critical ∨ wsl.summary.warn < win.summary.warn) →
      combineContexts wsl win = wsl) := by
  refine ⟨rfl, rfl, rfl, rfl, ?_, ?_⟩ <;>
    intro h <;> simp [combineContexts, h]

theorem claim_audit_merge_amended_witness :
    (0 < (⟨⟨2, 3, 1⟩, []⟩ : AuditResult).summary.critical ∨
      (⟨⟨0, 1, 2⟩, []⟩ : AuditResult).summary.warn <
        (⟨⟨2, 3, 1⟩, []⟩ : AuditResult).summary.warn) ∧
    combineContexts ⟨⟨0, 1, 2⟩, []⟩ ⟨⟨2, 3, 1⟩, []⟩ =
      mergeAudits ⟨⟨0, 1, 2⟩, []⟩ ⟨⟨2, 3, 1⟩, []⟩ :=
  ⟨by decide,
   (claim_audit_merge_amended ⟨⟨0, 1, 2⟩, []⟩ ⟨⟨2, 3, 1⟩, []⟩).2.2.2.2.1
     (by decide)⟩

/-! ## Fix Dispatcher (`applyFix` in `checks/index.js` and the `fixes`
registry of `checks/fixes.js`)

Command execution (`execAsync`) is abstracted into an `Executor`; each
registry entry is the list of shell commands its `try` block issues plus
its success message, and the surrounding `try/catch` that converts a
failed command into `{success: false, message}` is `execFixSpec`.  The
second component of `applyFix`'s result instruments which commands were
actually handed to the executor (the host-state footprint). -/

/-- `{success, message, output?}` returned by every fix. -/
structure FixResult where
  success : Bool
  message : String
  output : Option String := none
deriving DecidableEq, Repr

/-- Abstracted `execAsync`: a command either yields stdout or throws. -/
abbrev Executor := String → Except String String

/-- Shape of one registry entry: a plain command sequence with a success
message, a single command whose stdout is returned as `output`, or the
parameterized `fix_permissions` chmod. -/
inductive FixSpec where
  | simple (cmds : List String) (okMsg : String)
  | withOutput (cmd : String) (okMsg : String)
  | permChmod
deriving DecidableEq, Repr

/-- The commands a registry entry issues (given the request parameters). -/
def specCmds : FixSpec → Option (String × String) → List String
  | .simple cmds _, _ => cmds
  | .withOutput cmd _, _ => [cmd]
  | .permChmod, none => []
  | .permChmod, some (path, mode) => ["chmod " ++ mode ++ " \"" ++ path ++ "\""]

/-- Await the commands in order, stopping at the first throw; yields the
last command's stdout. -/
def runSeq (ex : Executor) : List String → Except String String
  | [] => .ok ""
  | [c] => ex c
  | c :: c2 :: rest =>
      match ex c with
      | .error m => .error m
      | .ok _ => runSeq ex (c2 :: rest)

/-- The commands actually handed to the executor (execution stops at the
first throw). -/
def runSeqTrace (ex : Executor) : List String → List String
  | [] => []
  | c :: rest =>
      match ex c with
      | .error _ => [c]
      | .ok _ => c :: runSeqTrace ex rest

/-- One registry entry's `try { ...commands...; return {success:true,...} }
catch (error) { return {success:false, message:error.message} }` body. -/
def execFixSpec (spec : FixSpec) (params : Option (String × String))
    (ex : Executor) : FixResult :=
  match spec with
  | .simple cmds okMsg =>
      match runSeq ex cmds with
      | .ok _ => { success := true, message := okMsg }
      | .error m => { success := false, message := m }
  | .withOutput cmd okMsg =>
      match ex cmd with
      | .ok out => { success := true, message := okMsg, output := some out }
      | .error m => { success := false, message := m }
  | .permChmod =>
      match params with
      | none => { success := false, message := "Missing path or mode parameter" }
      | some (path, mode) =>
          match ex ("chmod " ++ mode ++ " \"" ++ path ++ "\"") with
          | .ok _ => { success := true, message := "Fixed permissions on " ++ path }
          | .error m => { success := false, message := m }

/-- The `fixes` registry of `checks/fixes.js`, keyed by fix id. -/
def fixes : List (String × FixSpec) :=
  [("enable_ufw",
    .simple ["sudo ufw --force enable", "sudo ufw default deny incoming",
             "sudo ufw default allow outgoing"]
      "UFW enabled with default deny incoming policy"),
   ("enable_windows_firewall",
    .simple ["powershell.exe -Command \"Set-NetFirewallProfile -Profile Domain,Public,Private -Enabled True\""]
      "Windows Firewall enabled for all profiles"),
   ("install_security_updates",
    .withOutput "sudo apt-get upgrade -y --only-upgrade $(apt list --upgradable 2>/dev/null | grep -i security | cut -d/ -f1 | tail -n +2)"
      "Security updates installed"),
   ("install_all_updates",
    .withOutput "sudo apt-get upgrade -y" "All updates installed"),
   ("harden_ssh",
    .simple ["sudo cp /etc/ssh/sshd_config /etc/ssh/sshd_config.backup",
             "echo <hardened-config> | sudo tee -a /etc/ssh/sshd_config",
             "sudo systemctl restart sshd || sudo service ssh restart"]
      "SSH configuration hardened. Backup saved at /etc/ssh/sshd_config.backup"),
   ("stop_telnet",
    .simple ["sudo systemctl stop telnet.socket telnetd xinetd 2>/dev/null || true",
             "sudo systemctl disable telnet.socket telnetd xinetd 2>/dev/null || true"]
      "Telnet services stopped and disabled"),
   ("stop_ftp",
    .simple ["sudo systemctl stop vsftpd proftpd pure-ftpd 2>/dev/null || true",
             "sudo systemctl disable vsftpd proftpd pure-ftpd 2>/dev/null || true"]
      "FTP services stopped and disabled"),
   ("fix_permissions", .permChmod)]

/-- The dispatchable fix ids. -/
def fixKeys : List String := fixes.map (·.1)

/-- `applyFix(fixId, params)`: unknown ids throw `Unknown fix: id` before
anything runs, otherwise the registry entry executes.  The second
component records the commands handed to the executor. -/
def applyFix (fixId : String) (params : Option (String × String))
    (ex : Executor) : Except String FixResult × List String :=
  match (fixes.find? (fun e => e.1 = fixId)).map (·.2) with
  | none => (.error ("Unknown fix: " ++ fixId), [])
  | some spec =>
      (.ok (execFixSpec spec params ex), runSeqTrace ex (specCmds spec params))

theorem execFixSpec_error (spec : FixSpec) (params : Option (String × String))
    (ex : Executor) (m : String)
    (herr : runSeq ex (specCmds spec params) = .error m) :
    execFixSpec spec params ex = ⟨false, m, none⟩ := by
  cases spec with
  | simple cmds okMsg =>
      simp only [specCmds] at herr
      simp only [execFixSpec, herr]
  | withOutput cmd okMsg =>
      simp only [specCmds, runSeq] at herr
      simp only [execFixSpec, herr]
  | permChmod =>
      cases params with
      | none => simp [specCmds, runSeq] at herr
      | some pm =>
          obtain ⟨path, mode⟩ := pm
          simp only [specCmds, runSeq] at herr
          simp only [execFixSpec, herr]

/-- C9: an unknown fix id fails with the `Unknown fix` error before any
remediation command runs (empty command trace); for every registered fix,
a failing underlying command is captured and returned as
`{success: false, message: <error text>}` inside a successful protocol
response, never propagated as a thrown fault. -/
theorem claim_fix_dispatcher (fixId : String)
    (params : Option (String × String)) (ex : Executor) :
    (fixes.find? (fun e => e.1 = fixId) = none →
      applyFix fixId params ex = (.error ("Unknown fix: " ++ fixId), [])) ∧
    (∀ p, fixes.find? (fun e => e.1 = fixId) = some p →
      (applyFix fixId params ex).1 = .ok (execFixSpec p.2 params ex) ∧
      ∀ m, runSeq ex (specCmds p.2 params) = .error m →
        (applyFix fixId params ex).1 = .ok ⟨false, m, none⟩) := by
  constructor
  · intro hnone
    simp [applyFix, hnone]
  · intro p hp
    have h1 : (applyFix fixId params ex).1 = .ok (execFixSpec p.2 params ex) := by
      simp [applyFix, hp]
    exact ⟨h1, fun m herr => by rw [h1, execFixSpec_error p.2 params ex m herr]⟩

theorem claim_fix_dispatcher_witness :
    (fixes.find? (fun e => e.1 = "no_such_fix") = none ∧
      applyFix "no_such_fix" none (fun _ => .error "exec failed") =
        (.error ("Unknown fix: " ++ "no_such_fix"), [])) ∧
    ((applyFix "enable_ufw" none (fun _ => .error "exec failed")).1 =
      .ok ⟨false, "exec failed", none⟩) :=
  ⟨⟨by decide,
    (claim_fix_dispatcher "no_such_fix" none (fun _ => .error "exec failed")).1
      (by decide)⟩,
   ((claim_fix_dispatcher "enable_ufw" none (fun _ => .error "exec failed")).2
      ("enable_ufw",
        .simple ["sudo ufw --force enable", "sudo ufw default deny incoming",
                 "sudo ufw default allow outgoing"]
          "UFW enabled with default deny incoming policy")
      (by rfl)).2 "exec failed" (by rfl)⟩

/-! ## File-permissions probe (`checkFilePermissions` in
`checks/permissions.js`)

The `stat` calls are abstracted into `statMode : String → Option Nat`
(`none` = `ENOENT`/stat failure, `some m` = the raw `st_mode`); the
probe masks with `0o777` and flags a path whose bits exceed `maxMode`.
The world-writable `find` scan only appends a `medium` recommendation
and is not modelled (no claim reads it). -/

structure PathCheck where
  path : String
  maxMode : Nat
  system : Bool := false
deriving DecidableEq, Repr

/-- The `criticalPaths` table (paths under the caller's home plus the two
`/etc` system files). -/
def criticalPaths (home : String) : List PathCheck :=
  [⟨home ++ "/.ssh", 0o700, false⟩,
   ⟨home ++ "/.ssh/id_rsa", 0o600, false⟩,
   ⟨home ++ "/.ssh/id_ed25519", 0o600, false⟩,
   ⟨home ++ "/.ssh/authorized_keys", 0o600, false⟩,
   ⟨home ++ "/.gnupg", 0o700, false⟩,
   ⟨home ++ "/.config/clawdbot", 0o700, false⟩,
   ⟨"/etc/shadow", 0o640, true⟩,
   ⟨"/etc/passwd", 0o644, true⟩]

/-- The paths that could be stat-ed, with `mode = stats.mode & 0o777`. -/
def permChecked (home : String) (statMode : String → Option Nat) :
    List (PathCheck × Nat) :=
  (criticalPaths home).filterMap fun c =>
    (statMode c.path).map fun m => (c, m &&& 0o777)

/-- The issue entries: checked paths with `!(mode <= maxMode)`. -/
def permIssues (home : String) (statMode : String → Option Nat) :
    List (PathCheck × Nat) :=
  (permChecked home statMode).filter fun cm => !(decide (cm.2 ≤ cm.1.maxMode))

/-- `path.replace(/[^a-zA-Z0-9]/g, '_')`. -/
def sanitizeId (s : String) : String :=
  String.mk (s.toList.map fun c => if c.isAlphanum then c else '_')

/-- `n.toString(8)`. -/
def octalStr (n : Nat) : String := String.mk (Nat.toDigits 8 n)

/-- The recommendations pushed per issue (`critical` severity for system
paths, `high` otherwise). -/
def permRecommendations (home : String) (statMode : String → Option Nat) :
    List Recommendation :=
  (permIssues home statMode).map fun cm =>
    ⟨if cm.1.system then "critical" else "high",
     cm.1.path ++ " has permissions 0" ++ octalStr cm.2 ++ ", should be 0" ++
       octalStr cm.1.maxMode ++ " or stricter"⟩

/-- The auto-fix descriptors pushed for non-system issues. -/
def permFixes (home : String) (statMode : String → Option Nat) :
    List FixDescriptor :=
  ((permIssues home statMode).filter fun cm => !cm.1.system).map fun cm =>
    { id := "fix_perm_" ++ sanitizeId cm.1.path,
      name := "Fix " ++ cm.1.path ++ " permissions",
      description := "Change permissions to 0" ++ octalStr cm.1.maxMode,
      autoFix := true,
      command := some ("chmod " ++ octalStr cm.1.maxMode ++ " \"" ++ cm.1.path ++ "\"") }

/-- `checkFilePermissions` with the stat layer abstracted.  Status rule:
any issue whose path contains `/etc/` or `.ssh` escalates to `critical`,
any other issue yields `warning`, no issue yields `pass`. -/
def checkFilePermissions (home : String) (statMode : String → Option Nat) :
    CheckReport :=
  let issues := permIssues home statMode
  { id := "", name := "File Permissions",
    status :=
      if 0 < issues.length then
        if issues.any (fun cm =>
            strIncludes cm.1.path "/etc/" || strIncludes cm.1.path ".ssh") then
          .critical
        else .warning
      else .pass,
    message :=
      if 0 < issues.length then
        toString issues.length ++ " permission issue(s) found"
      else "File permissions are secure",
    details := issues.map fun cm => ("issue", cm.1.path),
    recommendations := permRecommendations home statMode,
    fixes := permFixes home statMode }

/-- The stat oracle of the C7 counterexample: only `~/.ssh/id_rsa`
exists, with loose `0644` permissions. -/
def looseIdRsaStat : String → Option Nat := fun p =>
  if p = "/home/user/.ssh/id_rsa" then some 0o644 else none

/-- C7 counterexample: the claim says an issue set containing only
user-owned paths yields `warning`, but a loose `~/.ssh/id_rsa` — a
user-owned path, not under `/etc` — already escalates the probe to
`critical`, because the code also escalates on paths containing `.ssh`. -/
theorem claim_perm_status_counterexample :
    (permIssues "/home/user" looseIdRsaStat).map (fun cm => cm.1.path) =
      ["/home/user/.ssh/id_rsa"] ∧
    (∀ cm ∈ permIssues "/home/user" looseIdRsaStat, cm.1.system = false) ∧
    (∀ cm ∈ permIssues "/home/user" looseIdRsaStat,
      strIncludes cm.1.path "/etc/" = false) ∧
    (checkFilePermissions "/home/user" looseIdRsaStat).status = .critical := by
  refine ⟨by decide, by decide, by decide, by decide⟩

/-- C7 amended: with at least one issue, the probe reports `critical`
exactly when some issue path contains `/etc/` **or** `.ssh` (so a
system-path issue under `/etc` always escalates to `critical`, but so
does a user-owned SSH path); only an issue set whose paths avoid both
substrings yields `warning`, and no issue yields `pass`. -/
theorem claim_perm_status_amended (home : String)
    (statMode : String → Option Nat) :
    (permIssues home statMode = [] →
      (checkFilePermissions home statMode).status = .pass) ∧
    (permIssues home statMode ≠ [] →
      ((checkFilePermissions home statMode).status = .critical ↔
        (permIssues home statMode).any (fun cm =>
          strIncludes cm.1.path "/etc/" || strIncludes cm.1.path ".ssh") = true) ∧
      ((checkFilePermissions home statMode).status = .warning ↔
        (permIssues home statMode).any (fun cm =>
          strIncludes cm.1.path "/etc/" || strIncludes cm.1.path ".ssh") = false)) ∧
    ((permIssues home statMode).any (fun cm => strIncludes cm.1.path "/etc/") = true →
      (checkFilePermissions home statMode).status = .critical) := by
  refine ⟨?_, ?_, ?_⟩
  · intro h
    simp [checkFilePermissions, h]
  · intro hne
    have hlen : 0 < (permIssues home statMode).length :=
      List.length_pos.mpr hne
    by_cases hany : (permIssues home statMode).any (fun cm =>
        strIncludes cm.1.path "/etc/" || strIncludes cm.1.path ".ssh") = true <;>
      simp [checkFilePermissions, hlen, hany]
  · intro hetc
    have hany : (permIssues home statMode).any (fun cm =>
        strIncludes cm.1.path "/etc/" || strIncludes cm.1.path ".ssh") = true := by
      simp only [List.any_eq_true] at hetc ⊢
      obtain ⟨cm, hmem, hc⟩ := hetc
      exact ⟨cm, hmem, by simp [hc]⟩
    have hne : permIssues home statMode ≠ [] := by
      intro h
      rw [h] at hany
      simp at hany
    have hlen : 0 < (permIssues home statMode).length :=
      List.length_pos.mpr hne
    simp [checkFilePermissions, hlen, hany]

/-- The stat oracle of the C7 witness: only `/etc/shadow` exists, with
loose `0666` permissions. -/
def looseShadowStat : String → Option Nat := fun p =>
  if p = "/etc/shadow" then some 0o666 else none

theorem claim_perm_status_amended_witness :
    permIssues "/home/user" looseShadowStat ≠ [] ∧
    ((checkFilePermissions "/home/user" looseShadowStat).status = .critical ↔
      (permIssues "/home/user" looseShadowStat).any (fun cm =>
        strIncludes cm.1.path "/etc/" || strIncludes cm.1.path ".ssh") = true) :=
  ⟨by decide,
   ((claim_perm_status_amended "/home/user" looseShadowStat).2.1 (by decide)).1⟩

/-! ## Running-services probe (`checkRunningServices` in
`checks/services.js`)

The `ss`/`ps` output is abstracted into the raw process-command list and
the listening-socket lines; a table service "is running" when its name
occurs in a (lowercased) process name or socket line.  The pass-branch
message interpolates the parsed service count, which is not modelled; no
claim reads the message. -/

structure ServiceRisk where
  name : String
  risk : String
  reason : String
deriving DecidableEq, Repr

/-- The `suspiciousServices` risk table. -/
def suspiciousServices : List ServiceRisk :=
  [⟨"telnet", "critical", "Unencrypted remote access protocol"⟩,
   ⟨"ftp", "high", "Unencrypted file transfer protocol"⟩,
   ⟨"rsh", "critical", "Insecure remote shell"⟩,
   ⟨"rlogin", "critical", "Insecure remote login"⟩,
   ⟨"vnc", "medium", "Remote desktop - ensure encrypted"⟩,
   ⟨"mysql", "low", "Database server - check binding"⟩,
   ⟨"postgres", "low", "Database server - check binding"⟩,
   ⟨"redis", "medium", "In-memory store - often misconfigured"⟩,
   ⟨"mongo", "medium", "Database - check authentication"⟩,
   ⟨"docker", "low", "Container runtime - check socket permissions"⟩]

/-- `isRunning`: the service name occurs in some lowercased process name
or some lowercased listening-socket line. -/
def serviceRunning (processes lines : List String) (s : ServiceRisk) : Bool :=
  (processes.map lowerStr).any (fun p => strIncludes p s.name) ||
    lines.any (fun l => strIncludes (lowerStr l) s.name)

/-- `details.riskyServices` in table order. -/
def riskyServices (processes lines : List String) : List ServiceRisk :=
  suspiciousServices.filter (serviceRunning processes lines)

/-- The `stop_<name>` auto-fixes pushed for running critical-risk
services. -/
def servicesFixes (processes lines : List String) : List FixDescriptor :=
  ((riskyServices processes lines).filter fun s => s.risk == "critical").map
    fun s =>
      { id := "stop_" ++ s.name, name := "Stop " ++ s.name,
        description := "Stop the " ++ s.name ++ " service", autoFix := true }

/-- `checkRunningServices` with the process/socket scan abstracted. -/
def checkRunningServices (processes lines : List String) : CheckReport :=
  let risky := riskyServices processes lines
  let criticalServices := risky.filter fun s => s.risk == "critical"
  let highRisk := risky.filter fun s => s.risk == "high"
  { id := "", name := "Running Services",
    status :=
      if 0 < criticalServices.length then .critical
      else if 0 < highRisk.length then .warning
      else .pass,
    message :=
      if 0 < criticalServices.length then
        toString criticalServices.length ++ " critical-risk service(s) running!"
      else if 0 < highRisk.length then
        toString highRisk.length ++ " high-risk service(s) detected"
      else "no major risks",
    details := risky.map fun s => (s.name, s.risk),
    recommendations := risky.map fun s => ⟨s.risk, s.name ++ " is running: " ++ s.reason⟩,
    fixes := servicesFixes processes lines }

/-- C4 counterexample: a running `rsh` makes the services probe emit the
auto-fix `stop_rsh`, but `stop_rsh` is not a key of the fix registry
(only `stop_telnet` and `stop_ftp` are), so the emitted auto-fix is not
dispatchable. -/
theorem claim_autofix_resolves_counterexample :
    (checkRunningServices ["rsh"] []).fixes =
      [{ id := "stop_rsh", name := "Stop rsh",
         description := "Stop the rsh service", autoFix := true }] ∧
    fixes.find? (fun e => e.1 = "stop_rsh") = none ∧
    "stop_rsh" ∉ fixKeys := by
  refine ⟨by decide, by decide, by decide⟩

theorem string_data_append (a b : String) : (a ++ b).data = a.data ++ b.data := by
  cases a
  cases b
  rfl

theorem take_append_self {α : Type _} (l₁ l₂ : List α) :
    (l₁ ++ l₂).take l₁.length = l₁ := by
  induction l₁ <;> simp [*]

/-- No fix id of the form `fix_perm_<sanitized path>` is a registry key. -/
theorem fix_perm_id_not_key (s : String) : "fix_perm_" ++ s ∉ fixKeys := by
  intro hmem
  have key : ∀ k : String, k.data.take 9 ≠ ("fix_perm_" : String).data →
      "fix_perm_" ++ s ≠ k := by
    intro k hk h
    apply hk
    have hd := congrArg String.data h
    rw [string_data_append] at hd
    rw [← hd]
    have hlen : ("fix_perm_" : String).data.length = 9 := by decide
    rw [← hlen, take_append_self]
  simp only [fixKeys, fixes, List.map_cons, List.map_nil, List.mem_cons,
    List.not_mem_nil, or_false] at hmem
  rcases hmem with h | h | h | h | h | h | h | h <;> exact key _ (by decide) h

/-- C4 amended: the SSH probe's only auto-fix id (`harden_ssh`) resolves
in the fix registry, but the invariant fails for the other two cited
probes: every auto-fix the services probe can emit is one of
`stop_telnet`, `stop_rsh`, `stop_rlogin`, of which only `stop_telnet` is
a registry key, and every auto-fix the permissions probe emits has a
`fix_perm_<path>` id, none of which is a registry key. -/
theorem claim_autofix_resolves_amended
    (cfgLines processes svcLines : List String)
    (home : String) (statMode : String → Option Nat) :
    (∀ fx ∈ (checkSSH true (some cfgLines)).fixes,
      fx.autoFix = true ∧ fx.id ∈ fixKeys) ∧
    (∀ fx ∈ (checkRunningServices processes svcLines).fixes,
      fx.autoFix = true ∧
      (fx.id = "stop_telnet" ∨ fx.id = "stop_rsh" ∨ fx.id = "stop_rlogin") ∧
      (fx.id ∈ fixKeys ↔ fx.id = "stop_telnet")) ∧
    (∀ fx ∈ permFixes home statMode, fx.autoFix = true ∧ fx.id ∉ fixKeys) := by
  refine ⟨?_, ?_, ?_⟩
  · intro fx hfx
    by_cases h0 : 0 < sshIssueCount cfgLines <;>
      simp [checkSSH, h0] at hfx
    subst hfx
    exact ⟨rfl, by decide⟩
  · intro fx hfx
    simp only [checkRunningServices, servicesFixes, List.mem_map,
      List.mem_filter] at hfx
    obtain ⟨s, ⟨hs_mem, hs_crit⟩, rfl⟩ := hfx
    have hs_in : s ∈ suspiciousServices := by
      simp only [riskyServices, List.mem_filter] at hs_mem
      exact hs_mem.1
    have hname : s.name = "telnet" ∨ s.name = "rsh" ∨ s.name = "rlogin" := by
      have hall : ∀ u ∈ suspiciousServices, u.risk == "critical" →
          (u.name = "telnet" ∨ u.name = "rsh" ∨ u.name = "rlogin") := by decide
      exact hall s hs_in hs_crit
    refine ⟨rfl, ?_, ?_⟩ <;>
      rcases hname with h | h | h <;> simp [h] <;> decide
  · intro fx hfx
    simp only [permFixes, List.mem_map, List.mem_filter] at hfx
    obtain ⟨cm, _, rfl⟩ := hfx
    exact ⟨rfl, fix_perm_id_not_key (sanitizeId cm.1.path)⟩

theorem claim_autofix_resolves_amended_witness :
    ({ id := "stop_rsh", name := "Stop rsh",
       description := "Stop the rsh service", autoFix := true } : FixDescriptor) ∈
      (checkRunningServices ["rsh"] []).fixes ∧
    (({ id := "stop_rsh", name := "Stop rsh",
        description := "Stop the rsh service", autoFix := true } : FixDescriptor).id ∈
      fixKeys ↔
      ({ id := "stop_rsh", name := "Stop rsh",
         description := "Stop the rsh service", autoFix := true } : FixDescriptor).id =
        "stop_telnet") :=
  ⟨by decide,
   ((claim_autofix_resolves_amended [] ["rsh"] [] "" (fun _ => none)).2.1
     { id := "stop_rsh", name := "Stop rsh",
       description := "Stop the rsh service", autoFix := true }
     (by decide)).2.2⟩

end SecurityDashboard
